import Mathlib

/-!
Shallow embedding of the client-side API layer of the `Py_Distillation`
creative-tooling webapp: the runtime request/response validators of
`webapp/lib/types.ts`, the `ApiServiceError` taxonomy, and the control flow
of the feature calls in `webapp/lib/api.ts` (`generateImages`,
`rewritePrompt`, `generateVideo`).

JavaScript runtime values are modelled by the inductive `JsValue`; JS numbers
are modelled as rationals (no claim involves NaN, infinities or float
rounding).  Property access on a missing key yields `JsValue.undefined`,
matching JS semantics, and JS truthiness is the `truthy` function below.
-/

namespace PyDistillation

/-- Model of a JavaScript runtime value, as far as the validators inspect it.
`undefined` is a first-class value so that absent object fields and
explicitly-undefined fields behave alike, as they do under the source's
`!== undefined` checks. -/
inductive JsValue where
  | undefined
  | null
  | bool (b : Bool)
  | num (q : ℚ)
  | str (s : String)
  | arr (elems : List JsValue)
  | obj (fields : List (String × JsValue))

namespace JsValue

/-- JS truthiness: `undefined`, `null`, `false`, `0` and `""` are falsy;
every other modelled value (including every object and array) is truthy. -/
def truthy : JsValue → Bool
  | .undefined => false
  | .null => false
  | .bool b => b
  | .num q => decide (q ≠ 0)
  | .str s => decide (s ≠ "")
  | .arr _ => true
  | .obj _ => true

/-- Whether `typeof v === 'string'`. -/
def isStrV : JsValue → Bool
  | .str _ => true
  | _ => false

/-- Whether `typeof v === 'number'`. -/
def isNumV : JsValue → Bool
  | .num _ => true
  | _ => false

/-- Whether `typeof v === 'boolean'`. -/
def isBoolV : JsValue → Bool
  | .bool _ => true
  | _ => false

/-- Whether `typeof v === 'object'`: in JS this is true for plain objects,
arrays and `null`. -/
def isObjType : JsValue → Bool
  | .obj _ => true
  | .arr _ => true
  | .null => true
  | _ => false

/-- Whether `v === undefined`. -/
def isUndef : JsValue → Bool
  | .undefined => true
  | _ => false

/-- The string payload of a string value (defaulting to `""`; callers only
use it under an `isStrV` guard). -/
def strD : JsValue → String
  | .str s => s
  | _ => ""

/-- The numeric payload of a number value (defaulting to `0`; callers only
use it under an `isNumV` guard). -/
def numD : JsValue → ℚ
  | .num q => q
  | _ => 0

/-- Property access `o[k]`: the first binding of `k` in an object, and
`undefined` on a missing key or a non-object receiver. -/
def getField : JsValue → String → JsValue
  | .obj fields, k =>
    match fields.find? (fun p => p.1 == k) with
    | some p => p.2
    | none => .undefined
  | _, _ => .undefined

/-- The JS `a || b` idiom on a value with a string default, as used for
error messages such as `data.error || 'Unknown API error'`.  The validated
paths only ever reach this with a string `v` (a truthy non-string would be
string-coerced by the JS `Error` constructor, a case validation rules out). -/
def orStr (v : JsValue) (dflt : String) : String :=
  if truthy v then (match v with | .str s => s | _ => dflt) else dflt

/-- The JS `a || b` idiom keeping the value itself, as used for error codes
such as `data.code || 'API_ERROR'`. -/
def orElseV (v : JsValue) (dflt : JsValue) : JsValue :=
  if truthy v then v else dflt

end JsValue

/-- Model of the JS `String.prototype.trim`: strip whitespace from both ends
of the character sequence (the JS and Lean whitespace classes agree on every
character appearing in this development). -/
def jsTrim (s : String) : String :=
  String.mk (((s.data.dropWhile Char.isWhitespace).reverse.dropWhile Char.isWhitespace).reverse)

/-- One field-level validation failure, mirroring the `ValidationError`
interface of `types.ts` (`value` is absent exactly where the source omits
it). -/
structure ValidationError where
  field : String
  message : String
  value : Option JsValue

open JsValue

/-- ASPECT_RATIOS from `types.ts`. -/
def aspectRatios : List String := ["1:1", "16:9", "9:16", "4:3"]

/-- RESOLUTIONS from `types.ts`. -/
def resolutions : List String := ["512x512", "1024x1024", "1536x1536", "2048x2048"]

/-- STYLES from `types.ts`. -/
def styles : List String := ["realistic", "artistic", "cartoon", "abstract"]

/-- CONTENT_TYPES from `types.ts`. -/
def contentTypes : List String := ["none", "photo", "art"]

/-- COLOR_TONES from `types.ts`. -/
def colorTones : List String :=
  ["none", "black and white", "cool tone", "golden", "monochromatic",
   "muted color", "pastel color", "toned image"]

/-- LIGHTING_OPTIONS from `types.ts`. -/
def lightingOptions : List String :=
  ["none", "backlighting", "dramatic light", "long-time exposure",
   "low lighting", "multiexposure", "studio light", "surreal lighting"]

/-- COMPOSITION_OPTIONS from `types.ts`. -/
def compositionOptions : List String :=
  ["none", "closeup", "knolling", "landscape photography",
   "photographed through window", "shallow depth of field", "shot from above",
   "shot from below", "surface details", "wide angle"]

/-- NUM_IMAGES_OPTIONS from `types.ts`. -/
def numImagesOptions : List ℚ := [1, 2, 3, 4]

/-- The `prompt` checks shared verbatim by `validateImageGenerationRequest`,
`validatePromptRewriteRequest` and `validateImageEditRequest`:
`!req.prompt || typeof req.prompt !== 'string'`, then emptiness after
trimming, then the 2000-character cap. -/
def validatePromptField (v : JsValue) : List ValidationError :=
  if !(truthy v) || !(isStrV v) then
    [⟨"prompt", "Prompt must be a string", some v⟩]
  else if (jsTrim (strD v)).length = 0 then
    [⟨"prompt", "Prompt cannot be empty", some v⟩]
  else if (strD v).length > 2000 then
    [⟨"prompt", "Prompt must be less than 2000 characters", some v⟩]
  else []

/-- A required enumerated string field:
`!req.f || typeof req.f !== 'string'` then `!ALLOWED.includes(req.f)`. -/
def requiredEnumField (fieldName typeMsg oneOfMsg : String)
    (allowed : List String) (v : JsValue) : List ValidationError :=
  if !(truthy v) || !(isStrV v) then
    [⟨fieldName, typeMsg, some v⟩]
  else if !(decide (strD v ∈ allowed)) then
    [⟨fieldName, oneOfMsg, some v⟩]
  else []

/-- An optional enumerated string field: skipped when `undefined`, otherwise
`typeof req.f !== 'string'` then `!ALLOWED.includes(req.f)` (note: no
truthiness check here, unlike the required fields). -/
def optionalEnumField (fieldName typeMsg oneOfMsg : String)
    (allowed : List String) (v : JsValue) : List ValidationError :=
  if isUndef v then []
  else if !(isStrV v) then
    [⟨fieldName, typeMsg, some v⟩]
  else if !(decide (strD v ∈ allowed)) then
    [⟨fieldName, oneOfMsg, some v⟩]
  else []

/-- The optional `numImages` check of `validateImageGenerationRequest`:
membership in NUM_IMAGES_OPTIONS = {1, 2, 3, 4}. -/
def validateNumImagesGen (v : JsValue) : List ValidationError :=
  if isUndef v then []
  else if !(isNumV v) then
    [⟨"numImages", "Number of images must be a number", some v⟩]
  else if !(decide (numD v ∈ numImagesOptions)) then
    [⟨"numImages", "Number of images must be one of: 1, 2, 3, 4", some v⟩]
  else []

/-- The optional `numImages` check of `validateImageEditRequest`: a range
check `req.numImages < 1 || req.numImages > 4` instead of set membership. -/
def validateNumImagesEdit (v : JsValue) : List ValidationError :=
  if isUndef v then []
  else if !(isNumV v) then
    [⟨"numImages", "Number of images must be a number", some v⟩]
  else if numD v < 1 ∨ numD v > 4 then
    [⟨"numImages", "Number of images must be between 1 and 4", some v⟩]
  else []

/-- Runtime validation of an image-generation request
(`validateImageGenerationRequest` in `types.ts`).  Errors are accumulated by
`push` in source order: prompt, ratio, resolution, style, contentType,
colorTone, lighting, composition, numImages. -/
def validateImageGenerationRequest (request : JsValue) : List ValidationError :=
  if !(truthy request) || !(isObjType request) then
    [⟨"request", "Request must be an object", none⟩]
  else
    validatePromptField (getField request "prompt")
    ++ requiredEnumField "ratio" "Aspect ratio must be a string"
        ("Aspect ratio must be one of: " ++ String.intercalate ", " aspectRatios)
        aspectRatios (getField request "ratio")
    ++ requiredEnumField "resolution" "Resolution must be a string"
        ("Resolution must be one of: " ++ String.intercalate ", " resolutions)
        resolutions (getField request "resolution")
    ++ requiredEnumField "style" "Style must be a string"
        ("Style must be one of: " ++ String.intercalate ", " styles)
        styles (getField request "style")
    ++ optionalEnumField "contentType" "Content type must be a string"
        ("Content type must be one of: " ++ String.intercalate ", " contentTypes)
        contentTypes (getField request "contentType")
    ++ optionalEnumField "colorTone" "Color tone must be a string"
        ("Color tone must be one of: " ++ String.intercalate ", " colorTones)
        colorTones (getField request "colorTone")
    ++ optionalEnumField "lighting" "Lighting must be a string"
        ("Lighting must be one of: " ++ String.intercalate ", " lightingOptions)
        lightingOptions (getField request "lighting")
    ++ optionalEnumField "composition" "Composition must be a string"
        ("Composition must be one of: " ++ String.intercalate ", " compositionOptions)
        compositionOptions (getField request "composition")
    ++ validateNumImagesGen (getField request "numImages")

/-- Runtime validation of a prompt-rewrite request
(`validatePromptRewriteRequest` in `types.ts`): the object guard and the
shared prompt checks only. -/
def validatePromptRewriteRequest (request : JsValue) : List ValidationError :=
  if !(truthy request) || !(isObjType request) then
    [⟨"request", "Request must be an object", none⟩]
  else
    validatePromptField (getField request "prompt")

/-- EDIT_MODES from `types.ts`. -/
def editModes : List String :=
  ["EDIT_MODE_INPAINT_INSERTION", "EDIT_MODE_INPAINT_REMOVAL",
   "EDIT_MODE_BGSWAP", "EDIT_MODE_OUTPAINT"]

/-- MASK_MODES from `types.ts`. -/
def maskModes : List String := ["foreground", "background", "semantic", "prompt"]

/-- Runtime validation of an image-edit request
(`validateImageEditRequest` in `types.ts`): prompt, editMode, maskMode, then
the range-style numImages check. -/
def validateImageEditRequest (request : JsValue) : List ValidationError :=
  if !(truthy request) || !(isObjType request) then
    [⟨"request", "Request must be an object", none⟩]
  else
    validatePromptField (getField request "prompt")
    ++ requiredEnumField "editMode" "Edit mode must be a string"
        ("Edit mode must be one of: " ++ String.intercalate ", " editModes)
        editModes (getField request "editMode")
    ++ requiredEnumField "maskMode" "Mask mode must be a string"
        ("Mask mode must be one of: " ++ String.intercalate ", " maskModes)
        maskModes (getField request "maskMode")
    ++ validateNumImagesEdit (getField request "numImages")

/-- An optional response field that, when present, must satisfy a `typeof`
check (`res.f !== undefined && typeof res.f !== '...'` in `types.ts`). -/
def optionalTypedField (fieldName typeMsg : String) (check : JsValue → Bool)
    (v : JsValue) : List ValidationError :=
  if isUndef v then []
  else if !(check v) then [⟨fieldName, typeMsg, some v⟩]
  else []

/-- A required response string field checked as
`!res.f || typeof res.f !== 'string'`. -/
def requiredStrField (fieldName typeMsg : String) (v : JsValue) : List ValidationError :=
  if !(truthy v) || !(isStrV v) then [⟨fieldName, typeMsg, some v⟩] else []

/-- The per-element check of the `images` array: each entry must be a
non-empty string, with the element index in the error's field name. -/
def imageItemErrors : Nat → List JsValue → List ValidationError
  | _, [] => []
  | i, x :: rest =>
    (if !(isStrV x) then
      [⟨"images[" ++ toString i ++ "]", "Each image must be a string", some x⟩]
    else if (strD x).length = 0 then
      [⟨"images[" ++ toString i ++ "]", "Image string cannot be empty", some x⟩]
    else []) ++ imageItemErrors (i + 1) rest

/-- The `images` field check of the success branch: `Array.isArray` then the
per-element checks. -/
def validateImagesField (v : JsValue) : List ValidationError :=
  match v with
  | .arr elems => imageItemErrors 0 elems
  | _ => [⟨"images", "Images must be an array", some v⟩]

/-- Runtime validation of an image-generation response
(`validateImageGenerationResponse` in `types.ts`): the success discriminator
must be boolean; the failure branch requires a truthy string `error`; the
success branch requires the `images` array and type-checks the optional
fields. -/
def validateImageGenerationResponse (response : JsValue) : List ValidationError :=
  if !(truthy response) || !(isObjType response) then
    [⟨"response", "Response must be an object", none⟩]
  else
    let s := getField response "success"
    let successErrs :=
      if !(isBoolV s) then [⟨"success", "Success field must be a boolean", some s⟩] else []
    match s with
    | .bool false =>
      successErrs ++ requiredStrField "error" "Error message must be a string" (getField response "error")
    | .bool true =>
      successErrs
      ++ validateImagesField (getField response "images")
      ++ optionalTypedField "message" "Message must be a string" isStrV (getField response "message")
      ++ optionalTypedField "requestId" "Request ID must be a string" isStrV (getField response "requestId")
      ++ optionalTypedField "model_used" "Model used must be a string" isStrV (getField response "model_used")
      ++ optionalTypedField "enhanced_prompt" "Enhanced prompt must be a string" isStrV (getField response "enhanced_prompt")
      ++ optionalTypedField "expires_in_hours" "Expires in hours must be a number" isNumV (getField response "expires_in_hours")
      ++ optionalTypedField "brand_guidelines_applied" "Brand guidelines applied must be a boolean" isBoolV (getField response "brand_guidelines_applied")
    | _ => successErrs

/-- Runtime validation of a prompt-rewrite response
(`validatePromptRewriteResponse` in `types.ts`). -/
def validatePromptRewriteResponse (response : JsValue) : List ValidationError :=
  if !(truthy response) || !(isObjType response) then
    [⟨"response", "Response must be an object", none⟩]
  else
    let s := getField response "success"
    let successErrs :=
      if !(isBoolV s) then [⟨"success", "Success field must be a boolean", some s⟩] else []
    match s with
    | .bool false =>
      successErrs ++ requiredStrField "error" "Error message must be a string" (getField response "error")
    | .bool true =>
      successErrs
      ++ requiredStrField "original_prompt" "Original prompt must be a string" (getField response "original_prompt")
      ++ requiredStrField "enhanced_prompt" "Enhanced prompt must be a string" (getField response "enhanced_prompt")
      ++ requiredStrField "message" "Message must be a string" (getField response "message")
      ++ optionalTypedField "warning" "Warning must be a string" isStrV (getField response "warning")
    | _ => successErrs

/-- The type guard `isApiError` of `types.ts`: `!response.success`. -/
def isApiError (response : JsValue) : Bool :=
  !(truthy (getField response "success"))

/-- Formats a validation-error list the way every thrown message does:
joined `"field: message"` fragments. -/
def joinValidationMessages (errors : List ValidationError) : String :=
  String.intercalate ", " (errors.map (fun e => e.field ++ ": " ++ e.message))

/-- The typed service error of `api.ts`.  The TS constructor is
`(message: string, code?: ApiErrorCode, details?: unknown,
validationErrors?: ValidationError[])`: `message` is mandatory and the three
optional parameters have no default values, so an omitted `code` is stored
as `undefined`.  Runtime error codes are strings, so `code` is a `JsValue`
(`.str` or `.undefined`). -/
structure ApiServiceError where
  message : String
  code : JsValue
  details : JsValue
  validationErrors : Option (List ValidationError)

/-- Constructing an `ApiServiceError`: a pure record assignment, exactly as
the TS constructor body.  Call sites that omit an optional argument pass
`.undefined` (resp. `none`), matching the TS parameter default of
`undefined`. -/
def mkApiServiceError (message : String) (code : JsValue) (details : JsValue)
    (validationErrors : Option (List ValidationError)) : ApiServiceError :=
  ⟨message, code, details, validationErrors⟩

/-- A value caught by a `catch (error)` clause, discriminated the way
`handleApiError` discriminates: an already-typed service error, an `Error`
named `AbortError`, a `TypeError`, some other `Error`, or a non-`Error`
value.  The original runtime error object carried in the `details` of the
wrapping error is outside the modelled JSON fragment, so those `details`
are modelled as `undefined`. -/
inductive CaughtError where
  | apiService (e : ApiServiceError)
  | abortThrown
  | typeThrown
  | otherThrown (message : String)
  | nonErrorValue (v : JsValue)

/-- The classifier `ImageGenerationAPI.handleApiError`: an `ApiServiceError`
passes through unchanged; an `AbortError` becomes REQUEST_CANCELLED; a
`TypeError` becomes NETWORK_ERROR; anything else becomes UNKNOWN_ERROR. -/
def handleApiError : CaughtError → ApiServiceError
  | .apiService e => e
  | .abortThrown =>
    mkApiServiceError "Request was cancelled or timed out" (.str "REQUEST_CANCELLED") .undefined none
  | .typeThrown =>
    mkApiServiceError "Network error: Unable to connect to the server" (.str "NETWORK_ERROR") .undefined none
  | .otherThrown m =>
    mkApiServiceError ("Unexpected error: " ++ m) (.str "UNKNOWN_ERROR") .undefined none
  | .nonErrorValue _ =>
    mkApiServiceError "An unknown error occurred" (.str "UNKNOWN_ERROR") .undefined none

/-- The outcome the environment assigns to the one network exchange a call
performs: the fetch promise rejects with an `AbortError` (cancellation or
timeout fired in flight), rejects with a `TypeError` (network failure), or
resolves with an HTTP response whose JSON body parses to `body` (`none`
models a malformed body on which `response.json()` rejects). -/
inductive FetchOutcome where
  | abortedInFlight
  | networkFailure
  | response (status : Nat) (statusText : String) (body : Option JsValue)

/-- Observable process-wide side effects of one call: whether the stored
auth credential was cleared, and how many navigations to the entry point
were forced. -/
structure SideEffects where
  authCleared : Bool
  navigations : Nat

/-- No side effect observed. -/
def noEffects : SideEffects := ⟨false, 0⟩

/-- Side effects of `handleAuthError` in `api.ts`: remove the `auth_token`
cookie and set `window.location.href` to the entry page, once. -/
def handleAuthErrorEffects : SideEffects := ⟨true, 1⟩

/-- What `authenticatedFetch` hands back to its caller: a thrown value plus
the side effects so far, or a resolved response. -/
inductive FetchResult where
  | thrown (t : CaughtError) (fx : SideEffects)
  | ok (status : Nat) (statusText : String) (body : Option JsValue) (fx : SideEffects)

/-- The `authenticatedFetch` wrapper of `api.ts`: propagates fetch
rejections, and on a 401 status runs `handleAuthError` and throws an
`ApiServiceError('Authentication required', 'HTTP_401')`. -/
def authenticatedFetch (o : FetchOutcome) : FetchResult :=
  match o with
  | .abortedInFlight => .thrown .abortThrown noEffects
  | .networkFailure => .thrown .typeThrown noEffects
  | .response status statusText body =>
    if status = 401 then
      .thrown (.apiService (mkApiServiceError "Authentication required" (.str "HTTP_401") .undefined none))
        handleAuthErrorEffects
    else .ok status statusText body noEffects

/-- The `Response.ok` flag: status in the 2xx range. -/
def responseOk (status : Nat) : Bool := decide (200 ≤ status ∧ status < 300)

/-- The ApiErrorCode enumeration, as the `validCodes` list inside
`ImageGenerationAPI.handleHttpError` spells it out. -/
def validCodes : List String :=
  ["NETWORK_ERROR", "REQUEST_CANCELLED",
   "HTTP_400", "HTTP_401", "HTTP_403", "HTTP_404", "HTTP_429",
   "HTTP_500", "HTTP_502", "HTTP_503", "HTTP_504",
   "INVALID_PROMPT", "INVALID_RATIO", "INVALID_RESOLUTION", "INVALID_STYLE",
   "PARSE_ERROR", "INVALID_RESPONSE", "API_ERROR", "UNKNOWN_ERROR",
   "VALIDATION_ERROR"]

/-- `ImageGenerationAPI.handleHttpError` on a non-2xx response: start from
the generic `HTTP <status>: <statusText>` message and `HTTP_<status>` code;
when an object error body parsed, take its string `error` as the message
and its string `code` as the code provided the code is in the known
enumeration.  On the parse-failure path the `details` hold the runtime
parse error, outside the modelled fragment. -/
def handleHttpError (status : Nat) (statusText : String) (body : Option JsValue) : ApiServiceError :=
  let defaultMsg := "HTTP " ++ toString status ++ ": " ++ statusText
  let defaultCode := "HTTP_" ++ toString status
  match body with
  | some errorData =>
    if truthy errorData && isObjType errorData then
      let msg := match getField errorData "error" with
        | .str s => s
        | _ => defaultMsg
      let code := match getField errorData "code" with
        | .str s => if decide (s ∈ validCodes) then s else defaultCode
        | _ => defaultCode
      mkApiServiceError msg (.str code) errorData none
    else
      mkApiServiceError defaultMsg (.str defaultCode) .undefined none
  | none => mkApiServiceError defaultMsg (.str defaultCode) .undefined none

/-- `ImageGenerationAPI.parseResponse`: a malformed JSON body becomes a
PARSE_ERROR service error. -/
def parseResponse (body : Option JsValue) : Except ApiServiceError JsValue :=
  match body with
  | some data => .ok data
  | none => .error (mkApiServiceError "Failed to parse response as JSON" (.str "PARSE_ERROR") .undefined none)

/-- `ImageGenerationAPI.validateResponse`: a structurally invalid body is
INVALID_RESPONSE; a valid body caught by `isApiError` (falsy `success`) is
thrown with the body's own error message and code, defaulting to
`'Unknown API error'` and API_ERROR via the `||` idiom. -/
def validateResponseThrow (data : JsValue) : Except ApiServiceError Unit :=
  let validationErrors := validateImageGenerationResponse data
  if validationErrors.length > 0 then
    .error (mkApiServiceError
      ("Response validation failed: " ++ joinValidationMessages validationErrors)
      (.str "INVALID_RESPONSE") (.obj [("response", data)]) (some validationErrors))
  else if isApiError data then
    .error (mkApiServiceError (orStr (getField data "error") "Unknown API error")
      (orElseV (getField data "code") (.str "API_ERROR")) (getField data "details") none)
  else .ok ()

/-- Whether `response.success === false` (strict equality, as in
`validateRewriteResponse`). -/
def isSuccessFalse (v : JsValue) : Bool :=
  match getField v "success" with
  | .bool false => true
  | _ => false

/-- `ImageGenerationAPI.validateRewriteResponse`: like `validateResponse`
but over the rewrite shape, with the strict `success === false` test. -/
def validateRewriteResponseThrow (data : JsValue) : Except ApiServiceError Unit :=
  let validationErrors := validatePromptRewriteResponse data
  if validationErrors.length > 0 then
    .error (mkApiServiceError
      ("Rewrite response validation failed: " ++ joinValidationMessages validationErrors)
      (.str "INVALID_RESPONSE") (.obj [("response", data)]) (some validationErrors))
  else if truthy data && isObjType data && isSuccessFalse data then
    .error (mkApiServiceError (orStr (getField data "error") "Unknown API error")
      (orElseV (getField data "code") (.str "API_ERROR")) (getField data "details") none)
  else .ok ()

/-- A value thrown out of a feature call: either the plain untyped
`new Error(...)` of the pre-flight cancellation check, or a typed
`ApiServiceError`. -/
inductive Thrown where
  | plainError (message : String)
  | apiError (e : ApiServiceError)

/-- Observable result of one feature call: what it returned or threw,
whether the network request was issued, and the auth side effects. -/
structure CallResult where
  result : Except Thrown JsValue
  networkIssued : Bool
  authCleared : Bool
  navigations : Nat

/-- A caller-supplied cancellation token (`AbortSignal`), observed at call
start through its `aborted` flag. -/
structure SignalState where
  aborted : Bool

/-- The shared `try` block of `generateImages` and `rewritePrompt`: fetch,
then the 2xx check, JSON parsing and response validation, with every caught
error normalized through `handleApiError` (already-typed errors pass
through unchanged). -/
def runFetchPhase (validateStep : JsValue → Except ApiServiceError Unit)
    (o : FetchOutcome) : CallResult :=
  match authenticatedFetch o with
  | .thrown t fx =>
    ⟨.error (.apiError (handleApiError t)), true, fx.authCleared, fx.navigations⟩
  | .ok status statusText body fx =>
    if !(responseOk status) then
      ⟨.error (.apiError (handleApiError (.apiService (handleHttpError status statusText body)))),
        true, fx.authCleared, fx.navigations⟩
    else
      match parseResponse body with
      | .error e => ⟨.error (.apiError (handleApiError (.apiService e))), true, fx.authCleared, fx.navigations⟩
      | .ok data =>
        match validateStep data with
        | .error e => ⟨.error (.apiError (handleApiError (.apiService e))), true, fx.authCleared, fx.navigations⟩
        | .ok _ => ⟨.ok data, true, fx.authCleared, fx.navigations⟩

/-- `ImageGenerationAPI.generateImages`: request validation throws
VALIDATION_ERROR before anything else; an already-aborted caller signal
makes the method `throw new Error('Request was already cancelled')` before
the `try` block — a plain untyped error — without issuing the fetch;
otherwise the fetch phase runs. -/
def generateImages (request : JsValue) (signal : Option SignalState)
    (o : FetchOutcome) : CallResult :=
  let validationErrors := validateImageGenerationRequest request
  if validationErrors.length > 0 then
    ⟨.error (.apiError (mkApiServiceError
        ("Request validation failed: " ++ joinValidationMessages validationErrors)
        (.str "VALIDATION_ERROR") (.obj [("request", request)]) (some validationErrors))),
      false, false, 0⟩
  else
    match signal with
    | some s =>
      if s.aborted then
        ⟨.error (.plainError "Request was already cancelled"), false, false, 0⟩
      else runFetchPhase validateResponseThrow o
    | none => runFetchPhase validateResponseThrow o

/-- `ImageGenerationAPI.rewritePrompt`: same shape as `generateImages` over
the rewrite validators, including the identical pre-`try` plain-Error throw
on an already-aborted signal. -/
def rewritePrompt (request : JsValue) (signal : Option SignalState)
    (o : FetchOutcome) : CallResult :=
  let validationErrors := validatePromptRewriteRequest request
  if validationErrors.length > 0 then
    ⟨.error (.apiError (mkApiServiceError
        ("Rewrite request validation failed: " ++ joinValidationMessages validationErrors)
        (.str "VALIDATION_ERROR") (.obj [("request", request)]) (some validationErrors))),
      false, false, 0⟩
  else
    match signal with
    | some s =>
      if s.aborted then
        ⟨.error (.plainError "Request was already cancelled"), false, false, 0⟩
      else runFetchPhase validateRewriteResponseThrow o
    | none => runFetchPhase validateRewriteResponseThrow o

/-- The standalone `generateVideo` of `api.ts`: no request validation; on a
non-2xx status it throws with the error body's message/code (defaults
`Video generation failed: <status>` / GENERATION_ERROR, with a failed error
body parse yielding `{}`); on a 2xx status the parsed body is returned
as-is, with no success-discriminator check; a malformed 2xx body makes
`response.json()` reject, which the catch wraps as NETWORK_ERROR. -/
def generateVideo (_request : JsValue) (o : FetchOutcome) : CallResult :=
  match authenticatedFetch o with
  | .thrown t fx =>
    match t with
    | .apiService e => ⟨.error (.apiError e), true, fx.authCleared, fx.navigations⟩
    | _ =>
      ⟨.error (.apiError (mkApiServiceError "Failed to generate video" (.str "NETWORK_ERROR") .undefined none)),
        true, fx.authCleared, fx.navigations⟩
  | .ok status _statusText body fx =>
    if !(responseOk status) then
      let errorData := body.getD (.obj [])
      ⟨.error (.apiError (mkApiServiceError
          (orStr (getField errorData "error") ("Video generation failed: " ++ toString status))
          (orElseV (getField errorData "code") (.str "GENERATION_ERROR")) .undefined none)),
        true, fx.authCleared, fx.navigations⟩
    else
      match body with
      | some data => ⟨.ok data, true, fx.authCleared, fx.navigations⟩
      | none =>
        ⟨.error (.apiError (mkApiServiceError "Failed to generate video" (.str "NETWORK_ERROR") .undefined none)),
          true, fx.authCleared, fx.navigations⟩

/-- The optional-filter normalization of `createImageGenerationRequest`:
an optional scalar is included only when supplied, truthy (non-empty) and
not the "none" sentinel. -/
def optFilterField (name : String) (v : Option String) : List (String × JsValue) :=
  match v with
  | some s => if s ≠ "" ∧ s ≠ "none" then [(name, .str s)] else []
  | none => []

/-- The candidate object `createImageGenerationRequest` assembles before
validating: the four required fields, the filtered optional filters, and
`numImages` whenever supplied. -/
def createImageGenerationRequestObj (prompt ratio resolution style : String)
    (contentType colorTone lighting composition : Option String)
    (numImages : Option ℚ) : JsValue :=
  .obj ([("prompt", .str prompt), ("ratio", .str ratio),
         ("resolution", .str resolution), ("style", .str style)]
    ++ optFilterField "contentType" contentType
    ++ optFilterField "colorTone" colorTone
    ++ optFilterField "lighting" lighting
    ++ optFilterField "composition" composition
    ++ (match numImages with | some q => [("numImages", .num q)] | none => []))

/-- The builder `createImageGenerationRequest` of `types.ts`: assemble the
candidate, validate it, and throw (here: `Except.error`) with the joined
messages when any check fails, otherwise return the validated object. -/
def createImageGenerationRequest (prompt ratio resolution style : String)
    (contentType colorTone lighting composition : Option String)
    (numImages : Option ℚ) : Except String JsValue :=
  let request := createImageGenerationRequestObj prompt ratio resolution style
    contentType colorTone lighting composition numImages
  let errors := validateImageGenerationRequest request
  if errors.length > 0 then
    .error ("Invalid request: " ++ joinValidationMessages errors)
  else .ok request

/-- The candidate object `createPromptRewriteRequest` assembles. -/
def createPromptRewriteRequestObj (prompt : String) : JsValue :=
  .obj [("prompt", .str prompt)]

/-- The builder `createPromptRewriteRequest` of `types.ts`. -/
def createPromptRewriteRequest (prompt : String) : Except String JsValue :=
  let request := createPromptRewriteRequestObj prompt
  let errors := validatePromptRewriteRequest request
  if errors.length > 0 then
    .error ("Invalid rewrite request: " ++ joinValidationMessages errors)
  else .ok request

/-! Concrete fixtures used by the claims. -/

/-- A four-field generation request with the given prompt and valid fixed
values for the other required fields. -/
def mkGenReq (p : String) : JsValue :=
  .obj [("prompt", .str p), ("ratio", .str "1:1"),
        ("resolution", .str "1024x1024"), ("style", .str "realistic")]

/-- A generation request with valid required fields and the given
`numImages` value. -/
def mkGenReqNum (v : JsValue) : JsValue :=
  .obj [("prompt", .str "a cat"), ("ratio", .str "1:1"),
        ("resolution", .str "1024x1024"), ("style", .str "realistic"),
        ("numImages", v)]

/-- An edit request with valid required fields and the given `numImages`
value. -/
def mkEditReqNum (v : JsValue) : JsValue :=
  .obj [("prompt", .str "a cat"), ("editMode", .str "EDIT_MODE_BGSWAP"),
        ("maskMode", .str "foreground"), ("numImages", v)]

/-- The rational 5/2, i.e. the JS number `2.5`, in reduced constructor form
(so that kernel evaluation does not need `Rat` normalization). -/
def ratTwoPointFive : ℚ := ⟨5, 2, by decide, by decide⟩

/-- The reduced form above really is `5 / 2`. -/
lemma ratTwoPointFive_eq : ratTwoPointFive = 5 / 2 := by
  rw [ratTwoPointFive, Rat.mk'_eq_divInt, Rat.divInt_eq_div]
  norm_num

/-- A valid prompt-rewrite request. -/
def rwReq : JsValue := .obj [("prompt", .str "a cat")]

/-- The HTTP-200 failure body of the spec scenario:
`{success: false, error: "quota exceeded", code: "API_ERROR"}`. -/
def quotaExceededBody : JsValue :=
  .obj [("success", .bool false), ("error", .str "quota exceeded"),
        ("code", .str "API_ERROR")]

/-! Helper lemmas about the field validators. -/

/-- A value read out of a `getField` cannot be anything but `undefined`
unless the receiver is an object, which is then truthy and of object type. -/
lemma getField_obj_of_ne_undefined (r : JsValue) (k : String)
    (h : getField r k ≠ .undefined) : truthy r = true ∧ isObjType r = true := by
  cases r <;> simp [getField, truthy, isObjType] at h ⊢

/-- A prompt that is non-empty after trimming and within the length cap
passes the shared prompt checks. -/
lemma validatePromptField_valid (p : String)
    (h1 : (jsTrim p).length ≠ 0) (h2 : p.length ≤ 2000) :
    validatePromptField (.str p) = [] := by
  have hp : p ≠ "" := by
    intro h
    subst h
    exact h1 rfl
  simp [validatePromptField, truthy, isStrV, strD, hp, h1, Nat.not_lt.mpr h2]

/-- A prompt that is non-empty after trimming but longer than 2000
characters yields exactly the length error. -/
lemma validatePromptField_too_long (p : String)
    (h1 : (jsTrim p).length ≠ 0) (h2 : 2000 < p.length) :
    validatePromptField (.str p) =
      [⟨"prompt", "Prompt must be less than 2000 characters", some (.str p)⟩] := by
  have hp : p ≠ "" := by
    intro h
    subst h
    exact h1 rfl
  simp [validatePromptField, truthy, isStrV, strD, hp, h1, h2]

/-- A required enumerated field passes on any member of its permitted set
(no permitted set contains the empty string). -/
lemma requiredEnumField_valid (f tm om : String) (allowed : List String) (s : String)
    (hmem : s ∈ allowed) (hempty : "" ∉ allowed) :
    requiredEnumField f tm om allowed (.str s) = [] := by
  have hs : s ≠ "" := by
    intro h
    subst h
    exact hempty hmem
  simp [requiredEnumField, truthy, isStrV, strD, hs, hmem]

/-- An absent optional enumerated field produces no error. -/
lemma optionalEnumField_undef (f tm om : String) (allowed : List String) :
    optionalEnumField f tm om allowed .undefined = [] := rfl

/-- A present optional enumerated field passes on any member of its
permitted set. -/
lemma optionalEnumField_valid (f tm om : String) (allowed : List String) (s : String)
    (hmem : s ∈ allowed) :
    optionalEnumField f tm om allowed (.str s) = [] := by
  simp [optionalEnumField, isUndef, isStrV, strD, hmem]

/-- An absent `numImages` produces no error in the generation validator. -/
lemma validateNumImagesGen_undef : validateNumImagesGen .undefined = [] := rfl

/-- A `numImages` in the permitted set passes in the generation validator. -/
lemma validateNumImagesGen_valid (q : ℚ) (hmem : q ∈ numImagesOptions) :
    validateNumImagesGen (.num q) = [] := by
  simp [validateNumImagesGen, isUndef, isNumV, numD, hmem]

/-- An optional enumerated field that is absent or a member of its set
passes. -/
lemma optionalEnumField_ok (f tm om : String) (allowed : List String) (v : JsValue)
    (h : v = .undefined ∨ ∃ s, v = .str s ∧ s ∈ allowed) :
    optionalEnumField f tm om allowed v = [] := by
  rcases h with h | ⟨s, h, hmem⟩ <;> subst h
  · rfl
  · exact optionalEnumField_valid f tm om allowed s hmem

/-- A `numImages` that is absent or a permitted number passes in the
generation validator. -/
lemma validateNumImagesGen_ok (v : JsValue)
    (h : v = .undefined ∨ ∃ q, v = .num q ∧ q ∈ numImagesOptions) :
    validateNumImagesGen v = [] := by
  rcases h with h | ⟨q, h, hmem⟩ <;> subst h
  · rfl
  · exact validateNumImagesGen_valid q hmem

/-- On a structurally valid failure body the `error` field is a non-empty
string. -/
lemma error_nonempty_of_valid_failure (body : JsValue) (es : String)
    (hval : validateImageGenerationResponse body = [])
    (hsucc : getField body "success" = .bool false)
    (herr : getField body "error" = .str es) : es ≠ "" := by
  intro h0
  subst h0
  obtain ⟨htr, hob⟩ := getField_obj_of_ne_undefined body "success" (by simp [hsucc])
  unfold validateImageGenerationResponse at hval
  rw [htr, hob] at hval
  simp [hsucc, herr, requiredStrField, truthy, isStrV, isBoolV] at hval

/-! Claim theorems. -/

/-- Claim C1, counterexample: the claim quantifies over every client call,
but `generateVideo` resolves an HTTP-200 body that is structurally valid
with `success: false` — the scenario body itself — as a returned value
instead of throwing. -/
theorem c1_counterexample :
    generateVideo rwReq (.response 200 "OK" (some quotaExceededBody)) =
      ⟨.ok quotaExceededBody, true, false, 0⟩ ∧
    validateImageGenerationResponse quotaExceededBody = [] ∧
    getField quotaExceededBody "success" = .bool false := ⟨rfl, rfl, rfl⟩

/-- Claim C1, amended: for `generateImages`, an HTTP-200 response whose
structurally valid body has `success: false` is thrown as a service error
whose message is the body's error string and whose code is the body's own
code when present and truthy (API_ERROR otherwise), so the caller never
receives the object; `generateVideo`, by contrast, returns the
`success: false` body as a resolved value. -/
theorem c1_amended (r body : JsValue) (es stt : String)
    (hreq : validateImageGenerationRequest r = [])
    (hval : validateImageGenerationResponse body = [])
    (hsucc : getField body "success" = .bool false)
    (herr : getField body "error" = .str es) :
    generateImages r none (.response 200 stt (some body)) =
      ⟨.error (.apiError (mkApiServiceError es
        (orElseV (getField body "code") (.str "API_ERROR"))
        (getField body "details") none)), true, false, 0⟩ ∧
    generateVideo r (.response 200 stt (some body)) =
      ⟨.ok body, true, false, 0⟩ := by
  have hes : es ≠ "" := error_nonempty_of_valid_failure body es hval hsucc herr
  constructor
  · simp [generateImages, hreq, runFetchPhase, authenticatedFetch, responseOk,
      parseResponse, validateResponseThrow, hval, isApiError, hsucc, herr,
      orStr, truthy, hes, handleApiError, noEffects]
  · simp [generateVideo, authenticatedFetch, responseOk, noEffects]

/-- Claim C1, witness: the spec scenario body
`{success: false, error: "quota exceeded", code: "API_ERROR"}` makes
`generateImages` throw with message `"quota exceeded"` and code API_ERROR,
while `generateVideo` resolves it. -/
theorem c1_amended_witness :
    generateImages (mkGenReq "a cat") none (.response 200 "OK" (some quotaExceededBody)) =
      ⟨.error (.apiError (mkApiServiceError "quota exceeded" (.str "API_ERROR") .undefined none)),
        true, false, 0⟩ ∧
    generateVideo (mkGenReq "a cat") (.response 200 "OK" (some quotaExceededBody)) =
      ⟨.ok quotaExceededBody, true, false, 0⟩ :=
  c1_amended (mkGenReq "a cat") quotaExceededBody "quota exceeded" "OK" rfl rfl rfl rfl

/-- Claim C2, counterexample: a call with an already-aborted caller signal
fails without issuing the network request, but by throwing the plain
untyped `Error('Request was already cancelled')`, not a typed service
error with code REQUEST_CANCELLED. -/
theorem c2_counterexample :
    generateImages (mkGenReq "a cat") (some ⟨true⟩) .networkFailure =
      ⟨.error (.plainError "Request was already cancelled"), false, false, 0⟩ := rfl

/-- Claim C2, amended: when the caller-supplied token is already aborted,
`generateImages` and `rewritePrompt` fail immediately and issue no network
request, but the thrown value is the plain untyped
`Error('Request was already cancelled')` (thrown before the try/catch that
would classify it), not a service error with code REQUEST_CANCELLED. -/
theorem c2_amended (r : JsValue) (s : SignalState) (o : FetchOutcome)
    (hs : s.aborted = true) :
    (validateImageGenerationRequest r = [] →
      generateImages r (some s) o =
        ⟨.error (.plainError "Request was already cancelled"), false, false, 0⟩) ∧
    (validatePromptRewriteRequest r = [] →
      rewritePrompt r (some s) o =
        ⟨.error (.plainError "Request was already cancelled"), false, false, 0⟩) := by
  constructor <;> intro h <;> simp [generateImages, rewritePrompt, h, hs]

/-- Claim C2, witness: both calls at concrete valid requests with an
aborted token. -/
theorem c2_amended_witness :
    generateImages (mkGenReq "a cat") (some ⟨true⟩) .networkFailure =
      ⟨.error (.plainError "Request was already cancelled"), false, false, 0⟩ ∧
    rewritePrompt rwReq (some ⟨true⟩) .networkFailure =
      ⟨.error (.plainError "Request was already cancelled"), false, false, 0⟩ :=
  ⟨(c2_amended (mkGenReq "a cat") ⟨true⟩ .networkFailure rfl).1 rfl,
   (c2_amended rwReq ⟨true⟩ .networkFailure rfl).2 rfl⟩

/-- Claim C3, counterexample: the construction
`new ApiServiceError('Proxy upload failed.')` (as in `uploadFileViaProxy`)
leaves the code `undefined`; it does not default to UNKNOWN_ERROR. -/
theorem c3_counterexample :
    (mkApiServiceError "Proxy upload failed." .undefined .undefined none).code = .undefined ∧
    (mkApiServiceError "Proxy upload failed." .undefined .undefined none).code ≠
      .str "UNKNOWN_ERROR" :=
  ⟨rfl, fun h => JsValue.noConfusion h⟩

/-- Claim C3, amended: every construction of `ApiServiceError` supplies a
human-readable message, and the optional code is stored exactly as given —
absent stays absent (`undefined`), with no defaulting in the constructor;
UNKNOWN_ERROR is instead assigned by the classifier `handleApiError` to
foreign errors it cannot classify. -/
theorem c3_amended :
    (∀ m c d ve, (mkApiServiceError m c d ve).message = m ∧
      (mkApiServiceError m c d ve).code = c) ∧
    (∀ m, (handleApiError (.otherThrown m)).code = .str "UNKNOWN_ERROR" ∧
      (handleApiError (.otherThrown m)).message = "Unexpected error: " ++ m) ∧
    (∀ v, (handleApiError (.nonErrorValue v)).code = .str "UNKNOWN_ERROR") :=
  ⟨fun _ _ _ _ => ⟨rfl, rfl⟩, fun _ => ⟨rfl, rfl⟩, fun _ => rfl⟩

/-- Claim C4, counterexample: on the request
`{prompt: "", ratio: "1:1", resolution: "1024x1024", style: "realistic"}`
the single error has field `prompt` but message `"Prompt must be a string"`
(the empty string fails the falsiness check before the emptiness check);
no error message mentions being empty. -/
theorem c4_counterexample :
    validateImageGenerationRequest (mkGenReq "") =
      [⟨"prompt", "Prompt must be a string", some (.str "")⟩] ∧
    (validateImageGenerationRequest (mkGenReq "")).all
      (fun e => e.message != "Prompt cannot be empty") = true := ⟨rfl, rfl⟩

/-- Claim C4, amended: the empty-prompt request yields exactly one
validation error for field `prompt`, but its message is
`"Prompt must be a string"` because the empty string is falsy and fails
the type check first; a whitespace-only prompt gets
`"Prompt cannot be empty"`. -/
theorem c4_amended :
    validateImageGenerationRequest (mkGenReq "") =
      [⟨"prompt", "Prompt must be a string", some (.str "")⟩] ∧
    validateImageGenerationRequest (mkGenReq " ") =
      [⟨"prompt", "Prompt cannot be empty", some (.str " ")⟩] := ⟨rfl, rfl⟩

/-- Claim C5, counterexample: `numImages = 2.5` passes
`validateImageEditRequest` (whose check is the range `1 ≤ n ≤ 4`) even
though `validateImageGenerationRequest` rejects it, so the two validators
do not agree on the claimed membership rule. -/
theorem c5_counterexample :
    ratTwoPointFive = 5 / 2 ∧
    validateImageEditRequest (mkEditReqNum (.num ratTwoPointFive)) = [] ∧
    validateImageGenerationRequest (mkGenReqNum (.num ratTwoPointFive)) =
      [⟨"numImages", "Number of images must be one of: 1, 2, 3, 4",
        some (.num ratTwoPointFive)⟩] :=
  ⟨ratTwoPointFive_eq, rfl, rfl⟩

/-- Claim C5, amended: on an otherwise valid request with a numeric
`numImages`, `validateImageGenerationRequest` accepts exactly the members
of {1, 2, 3, 4} (so 2.5 is rejected there), while `validateImageEditRequest`
accepts exactly the closed range `1 ≤ n ≤ 4` (so 2.5 passes there). -/
theorem c5_amended (q : ℚ) :
    (validateImageGenerationRequest (mkGenReqNum (.num q)) = [] ↔
      q ∈ numImagesOptions) ∧
    (validateImageEditRequest (mkEditReqNum (.num q)) = [] ↔ 1 ≤ q ∧ q ≤ 4) := by
  have h1 : validateImageGenerationRequest (mkGenReqNum (.num q)) =
      validateNumImagesGen (.num q) := rfl
  have h2 : validateImageEditRequest (mkEditReqNum (.num q)) =
      validateNumImagesEdit (.num q) := rfl
  rw [h1, h2]
  constructor
  · by_cases hq : q ∈ numImagesOptions <;>
      simp [validateNumImagesGen, isUndef, isNumV, numD, hq]
  · constructor
    · intro he
      by_contra hc
      have hq : q < 1 ∨ q > 4 := by
        rcases not_and_or.mp hc with h3 | h3
        · exact Or.inl (not_le.mp h3)
        · exact Or.inr (not_le.mp h3)
      simp [validateNumImagesEdit, isUndef, isNumV, numD, hq] at he
    · intro hc
      have hq : ¬ (q < 1 ∨ q > 4) := by
        push_neg
        exact ⟨hc.1, hc.2⟩
      simp [validateNumImagesEdit, isUndef, isNumV, numD, hq]

/-- Claim C6: on an HTTP 401 response, each modelled authenticated call
clears the stored credential, forces the navigation side effect exactly
once, and fails with a service error whose code is HTTP_401. -/
theorem c6_holds (r : JsValue) (stt : String) (body : Option JsValue) :
    (validateImageGenerationRequest r = [] →
      generateImages r none (.response 401 stt body) =
        ⟨.error (.apiError (mkApiServiceError "Authentication required"
          (.str "HTTP_401") .undefined none)), true, true, 1⟩) ∧
    (validatePromptRewriteRequest r = [] →
      rewritePrompt r none (.response 401 stt body) =
        ⟨.error (.apiError (mkApiServiceError "Authentication required"
          (.str "HTTP_401") .undefined none)), true, true, 1⟩) ∧
    generateVideo r (.response 401 stt body) =
      ⟨.error (.apiError (mkApiServiceError "Authentication required"
        (.str "HTTP_401") .undefined none)), true, true, 1⟩ := by
  refine ⟨fun h => ?_, fun h => ?_, ?_⟩
  · simp [generateImages, h, runFetchPhase, authenticatedFetch,
      handleApiError, handleAuthErrorEffects]
  · simp [rewritePrompt, h, runFetchPhase, authenticatedFetch,
      handleApiError, handleAuthErrorEffects]
  · simp [generateVideo, authenticatedFetch, handleApiError,
      handleAuthErrorEffects]

/-- Claim C6, witness: the three calls at concrete requests and a concrete
401 response. -/
theorem c6_witness :
    generateImages (mkGenReq "a cat") none (.response 401 "Unauthorized" none) =
      ⟨.error (.apiError (mkApiServiceError "Authentication required"
        (.str "HTTP_401") .undefined none)), true, true, 1⟩ ∧
    rewritePrompt rwReq none (.response 401 "Unauthorized" none) =
      ⟨.error (.apiError (mkApiServiceError "Authentication required"
        (.str "HTTP_401") .undefined none)), true, true, 1⟩ ∧
    generateVideo rwReq (.response 401 "Unauthorized" none) =
      ⟨.error (.apiError (mkApiServiceError "Authentication required"
        (.str "HTTP_401") .undefined none)), true, true, 1⟩ :=
  ⟨(c6_holds (mkGenReq "a cat") "Unauthorized" none).1 rfl,
   (c6_holds rwReq "Unauthorized" none).2.1 rfl,
   (c6_holds rwReq "Unauthorized" none).2.2⟩

/-- Claim C7: a request candidate in which every field satisfies its
constraint — prompt a trimmed-non-empty string of at most 2000 characters,
the three required enumerated fields members of their permitted sets, and
each optional field absent or a member of its permitted set — validates to
the empty error list.  (The validator is a total function, so it never
throws.) -/
theorem c7_holds
    (r : JsValue) (p ra re st : String)
    (hp : getField r "prompt" = .str p)
    (hp1 : (jsTrim p).length ≠ 0) (hp2 : p.length ≤ 2000)
    (hra : getField r "ratio" = .str ra) (hraMem : ra ∈ aspectRatios)
    (hre : getField r "resolution" = .str re) (hreMem : re ∈ resolutions)
    (hst : getField r "style" = .str st) (hstMem : st ∈ styles)
    (hct : getField r "contentType" = .undefined ∨
      ∃ s, getField r "contentType" = .str s ∧ s ∈ contentTypes)
    (hcl : getField r "colorTone" = .undefined ∨
      ∃ s, getField r "colorTone" = .str s ∧ s ∈ colorTones)
    (hli : getField r "lighting" = .undefined ∨
      ∃ s, getField r "lighting" = .str s ∧ s ∈ lightingOptions)
    (hco : getField r "composition" = .undefined ∨
      ∃ s, getField r "composition" = .str s ∧ s ∈ compositionOptions)
    (hni : getField r "numImages" = .undefined ∨
      ∃ q, getField r "numImages" = .num q ∧ q ∈ numImagesOptions) :
    validateImageGenerationRequest r = [] := by
  obtain ⟨htr, hob⟩ := getField_obj_of_ne_undefined r "prompt" (by simp [hp])
  unfold validateImageGenerationRequest
  rw [htr, hob]
  rw [hp, hra, hre, hst]
  rw [validatePromptField_valid p hp1 hp2,
    requiredEnumField_valid _ _ _ _ _ hraMem (by decide),
    requiredEnumField_valid _ _ _ _ _ hreMem (by decide),
    requiredEnumField_valid _ _ _ _ _ hstMem (by decide),
    optionalEnumField_ok _ _ _ _ _ hct,
    optionalEnumField_ok _ _ _ _ _ hcl,
    optionalEnumField_ok _ _ _ _ _ hli,
    optionalEnumField_ok _ _ _ _ _ hco,
    validateNumImagesGen_ok _ hni]
  simp

/-- Claim C7, witness: a concrete request exercising every field, optional
ones included. -/
theorem c7_witness :
    validateImageGenerationRequest (.obj
      [("prompt", .str "a cat"), ("ratio", .str "16:9"),
       ("resolution", .str "2048x2048"), ("style", .str "artistic"),
       ("contentType", .str "photo"), ("colorTone", .str "golden"),
       ("lighting", .str "studio light"), ("composition", .str "closeup"),
       ("numImages", .num 3)]) = [] :=
  c7_holds _ "a cat" "16:9" "2048x2048" "artistic" rfl (by decide) (by decide)
    rfl (by decide) rfl (by decide) rfl (by decide)
    (Or.inr ⟨"photo", rfl, by decide⟩) (Or.inr ⟨"golden", rfl, by decide⟩)
    (Or.inr ⟨"studio light", rfl, by decide⟩) (Or.inr ⟨"closeup", rfl, by decide⟩)
    (Or.inr ⟨3, rfl, by decide⟩)

/-- Claim C8: whenever a request builder returns without throwing, its
result re-validates cleanly. -/
theorem c8_holds (p ra re st : String)
    (ct cl li co : Option String) (ni : Option ℚ) (p2 : String) (out out2 : JsValue) :
    (createImageGenerationRequest p ra re st ct cl li co ni = .ok out →
      validateImageGenerationRequest out = []) ∧
    (createPromptRewriteRequest p2 = .ok out2 →
      validatePromptRewriteRequest out2 = []) := by
  constructor
  · intro h
    simp only [createImageGenerationRequest] at h
    split at h
    · exact Except.noConfusion h
    · rename_i hlen
      injection h with h2
      subst h2
      exact List.length_eq_zero.mp (Nat.eq_zero_of_not_pos hlen)
  · intro h
    simp only [createPromptRewriteRequest] at h
    split at h
    · exact Except.noConfusion h
    · rename_i hlen
      injection h with h2
      subst h2
      exact List.length_eq_zero.mp (Nat.eq_zero_of_not_pos hlen)

/-- Claim C8, witness: both builders at concrete valid scalars. -/
theorem c8_witness :
    validateImageGenerationRequest (createImageGenerationRequestObj
      "a cat" "1:1" "1024x1024" "realistic" (some "photo") (some "none")
      none none (some 2)) = [] ∧
    validatePromptRewriteRequest (createPromptRewriteRequestObj "a cat") = [] :=
  ⟨(c8_holds "a cat" "1:1" "1024x1024" "realistic" (some "photo") (some "none")
      none none (some 2) "a cat" _ (createPromptRewriteRequestObj "a cat")).1 rfl,
   (c8_holds "a cat" "1:1" "1024x1024" "realistic" (some "photo") (some "none")
      none none (some 2) "a cat" (createPromptRewriteRequestObj "a cat") _).2 rfl⟩

/-- Claim C9: with a trimmed-non-empty prompt and the other fields valid,
the request is accepted exactly when the prompt has at most 2000
characters — a 2000-character prompt passes, only strictly longer ones are
rejected — and the rejection message is the off-by-one-sounding
`"Prompt must be less than 2000 characters"`. -/
theorem c9_holds (p : String) (h : (jsTrim p).length ≠ 0) :
    (validateImageGenerationRequest (mkGenReq p) = [] ↔ p.length ≤ 2000) ∧
    (2000 < p.length →
      validateImageGenerationRequest (mkGenReq p) =
        [⟨"prompt", "Prompt must be less than 2000 characters", some (.str p)⟩]) := by
  have hbase : validateImageGenerationRequest (mkGenReq p) =
      validatePromptField (.str p) ++ [] ++ [] ++ [] ++ [] ++ [] ++ [] ++ [] ++ [] := rfl
  rw [hbase]
  simp only [List.append_nil]
  constructor
  · constructor
    · intro he
      by_contra hlen
      push_neg at hlen
      rw [validatePromptField_too_long p h hlen] at he
      exact List.noConfusion he
    · intro hlen
      exact validatePromptField_valid p h hlen
  · intro hlen
    exact validatePromptField_too_long p h hlen

/-- Claim C9, witness: a short prompt instantiates the hypotheses, and the
boundary itself is expressed by the universally quantified biconditional. -/
theorem c9_witness :
    (jsTrim "a cat").length ≠ 0 ∧
    (validateImageGenerationRequest (mkGenReq "a cat") = [] ↔
      ("a cat").length ≤ 2000) :=
  ⟨by decide, (c9_holds "a cat" (by decide)).1⟩

/-- The prompt checks report at most one error and only for `prompt`. -/
lemma fields_validatePromptField (v : JsValue) :
    List.Sublist ((validatePromptField v).map ValidationError.field) ["prompt"] := by
  unfold validatePromptField
  split
  · simp
  · split
    · simp
    · split <;> simp

/-- A required enumerated field reports at most one error and only for its
own field name. -/
lemma fields_requiredEnumField (f tm om : String) (allowed : List String) (v : JsValue) :
    List.Sublist ((requiredEnumField f tm om allowed v).map ValidationError.field) [f] := by
  unfold requiredEnumField
  split
  · simp
  · split <;> simp

/-- An optional enumerated field reports at most one error and only for its
own field name. -/
lemma fields_optionalEnumField (f tm om : String) (allowed : List String) (v : JsValue) :
    List.Sublist ((optionalEnumField f tm om allowed v).map ValidationError.field) [f] := by
  unfold optionalEnumField
  split
  · simp
  · split
    · simp
    · split <;> simp

/-- The generation `numImages` check reports at most one error and only for
`numImages`. -/
lemma fields_validateNumImagesGen (v : JsValue) :
    List.Sublist ((validateNumImagesGen v).map ValidationError.field) ["numImages"] := by
  unfold validateNumImagesGen
  split
  · simp
  · split
    · simp
    · split <;> simp

/-- The fixed field order in which `validateImageGenerationRequest` pushes
errors. -/
def genFieldOrder : List String :=
  ["request", "prompt", "ratio", "resolution", "style", "contentType",
   "colorTone", "lighting", "composition", "numImages"]

/-- Claim C10: for every input, the error list's field names form a
sublist of the fixed duplicate-free field order — hence at most one error
per field, every field name drawn from that fixed set (so unknown or extra
fields never produce an error), and errors always in that order. -/
theorem c10_holds :
    (∀ r, List.Sublist ((validateImageGenerationRequest r).map ValidationError.field)
      genFieldOrder) ∧
    genFieldOrder.Nodup := by
  constructor
  · intro r
    unfold validateImageGenerationRequest
    split
    · decide
    · simp only [List.map_append]
      have hs := List.Sublist.append (List.Sublist.append (List.Sublist.append
        (List.Sublist.append (List.Sublist.append (List.Sublist.append
        (List.Sublist.append (List.Sublist.append
        (fields_validatePromptField (getField r "prompt"))
        (fields_requiredEnumField "ratio" "Aspect ratio must be a string"
          ("Aspect ratio must be one of: " ++ String.intercalate ", " aspectRatios)
          aspectRatios (getField r "ratio")))
        (fields_requiredEnumField "resolution" "Resolution must be a string"
          ("Resolution must be one of: " ++ String.intercalate ", " resolutions)
          resolutions (getField r "resolution")))
        (fields_requiredEnumField "style" "Style must be a string"
          ("Style must be one of: " ++ String.intercalate ", " styles)
          styles (getField r "style")))
        (fields_optionalEnumField "contentType" "Content type must be a string"
          ("Content type must be one of: " ++ String.intercalate ", " contentTypes)
          contentTypes (getField r "contentType")))
        (fields_optionalEnumField "colorTone" "Color tone must be a string"
          ("Color tone must be one of: " ++ String.intercalate ", " colorTones)
          colorTones (getField r "colorTone")))
        (fields_optionalEnumField "lighting" "Lighting must be a string"
          ("Lighting must be one of: " ++ String.intercalate ", " lightingOptions)
          lightingOptions (getField r "lighting")))
        (fields_optionalEnumField "composition" "Composition must be a string"
          ("Composition must be one of: " ++ String.intercalate ", " compositionOptions)
          compositionOptions (getField r "composition")))
        (fields_validateNumImagesGen (getField r "numImages"))
      exact hs.trans (by decide)
  · decide

end PyDistillation
